import Mathlib

/-!
Shallow embedding of the camera projection utilities of the
photorealistic-blocksworld repository (src/utils.py): the intrinsic
parameter computation `intrinsic_mat` (utils.py lines 84-111), the inverse
projection `image2world` (lines 44-73) and the forward projection with its
consistency assertion `get_camera_coords` (lines 114-140), together with a
model of the host API `world_to_camera_view` that `get_camera_coords`
calls.

Python floats are embedded as rationals, so all arithmetic is exact.
Python operations that can raise are embedded in `Except`: division by
zero raises `ZeroDivisionError`, a failed `assert` raises an assertion
error (named `PreconditionError` or `ConsistencyError` after the
specification's error taxonomy), and inverting a singular matrix raises
the host's `ValueError` (`SingularMatrixError` here).
-/

namespace BlocksWorld

/-- Errors a call can surface: the two assertion failures of utils.py
(named after the specification: the `intrinsic_mat` asserts are
`PreconditionError`, the `get_camera_coords` assert is
`ConsistencyError`), Python's `ZeroDivisionError`, and the host's
`ValueError` on inverting a singular matrix. -/
inductive PyError where
  | PreconditionError
  | ConsistencyError
  | ZeroDivisionError
  | SingularMatrixError
  deriving DecidableEq

/-- Blender camera types: `camera.type` is compared against the string
ORTHO in utils.py lines 53; the other Blender values are PERSP and PANO. -/
inductive CamType where
  | ORTHO
  | PERSP
  | PANO
  deriving DecidableEq

/-- Blender sensor-fit values: `cam.sensor_fit` is compared against the
string VERTICAL in utils.py line 90. -/
inductive SensorFit where
  | AUTO
  | HORIZONTAL
  | VERTICAL
  deriving DecidableEq

/-- A 3-component vector (mathutils.Vector of length 3), with exact
rational components standing for Python floats. -/
@[ext]
structure Vec3 where
  x : ℚ
  y : ℚ
  z : ℚ
  deriving DecidableEq

/-- Componentwise negation: `-v` on a mathutils Vector. -/
def vneg (v : Vec3) : Vec3 := ⟨-v.x, -v.y, -v.z⟩

/-- Componentwise subtraction of vectors. -/
def vsub (a b : Vec3) : Vec3 := ⟨a.x - b.x, a.y - b.y, a.z - b.z⟩

/-- Componentwise addition of vectors. -/
def vadd (a b : Vec3) : Vec3 := ⟨a.x + b.x, a.y + b.y, a.z + b.z⟩

/-- A 3x3 matrix, row major: the rotation part of a camera's
orthonormalized world matrix. -/
structure Mat3 where
  m00 : ℚ
  m01 : ℚ
  m02 : ℚ
  m10 : ℚ
  m11 : ℚ
  m12 : ℚ
  m20 : ℚ
  m21 : ℚ
  m22 : ℚ
  deriving DecidableEq

/-- Matrix-vector product (`Matrix * Vector` in mathutils). -/
def mulV (M : Mat3) (v : Vec3) : Vec3 :=
  ⟨M.m00 * v.x + M.m01 * v.y + M.m02 * v.z,
   M.m10 * v.x + M.m11 * v.y + M.m12 * v.z,
   M.m20 * v.x + M.m21 * v.y + M.m22 * v.z⟩

/-- Determinant of a 3x3 matrix. -/
def det3 (M : Mat3) : ℚ :=
  M.m00 * (M.m11 * M.m22 - M.m12 * M.m21)
    - M.m01 * (M.m10 * M.m22 - M.m12 * M.m20)
    + M.m02 * (M.m10 * M.m21 - M.m11 * M.m20)

/-- The inverse of a 3x3 matrix by the adjugate formula (meaningful when
the determinant is nonzero). -/
def inv3 (M : Mat3) : Mat3 :=
  let d := det3 M
  ⟨(M.m11 * M.m22 - M.m12 * M.m21) / d,
   (M.m02 * M.m21 - M.m01 * M.m22) / d,
   (M.m01 * M.m12 - M.m02 * M.m11) / d,
   (M.m12 * M.m20 - M.m10 * M.m22) / d,
   (M.m00 * M.m22 - M.m02 * M.m20) / d,
   (M.m02 * M.m10 - M.m00 * M.m12) / d,
   (M.m10 * M.m21 - M.m11 * M.m20) / d,
   (M.m01 * M.m20 - M.m00 * M.m21) / d,
   (M.m00 * M.m11 - M.m01 * M.m10) / d⟩

/-- `Matrix.inverted()` of mathutils: raises `ValueError` on a singular
matrix, otherwise returns the inverse. -/
def matInv3 (M : Mat3) : Except PyError Mat3 :=
  if det3 M = 0 then Except.error PyError.SingularMatrixError
  else Except.ok (inv3 M)

/-- Python scalar division: raises `ZeroDivisionError` on a zero
denominator. -/
def pydiv (a b : ℚ) : Except PyError ℚ :=
  if b = 0 then Except.error PyError.ZeroDivisionError
  else Except.ok (a / b)

/-- mathutils `Vector / float`: componentwise division, raising
`ZeroDivisionError` on a zero denominator. -/
def pydivV (v : Vec3) (s : ℚ) : Except PyError Vec3 :=
  if s = 0 then Except.error PyError.ZeroDivisionError
  else Except.ok ⟨v.x / s, v.y / s, v.z / s⟩

/-- Render settings of the scene (`scene.render` fields read by
utils.py). -/
structure Scene where
  resolution_x : ℤ
  resolution_y : ℤ
  resolution_percentage : ℤ
  pixel_aspect_x : ℚ
  pixel_aspect_y : ℚ

/-- Camera data block (`cam.data` in Blender): the fields read by
utils.py, plus the scene-dependent view frame `camera.view_frame(scene)`,
a host-computed quadruple of camera-local corner points taken here as an
opaque input. -/
structure CamData where
  ctype : CamType
  lens : ℚ
  sensor_width : ℚ
  sensor_fit : SensorFit
  shift_x : ℚ
  shift_y : ℚ
  view_frame : Scene → Vec3 × Vec3 × Vec3 × Vec3

/-- A camera object: its data block and its orthonormalized world matrix
`cam.matrix_world.normalized()` (the host's normalization output is taken
as the input here), split into rotation part and translation; the
transform maps camera-local points v to `mulV mw_R v + mw_t`. -/
structure Camera where
  data : CamData
  mw_R : Mat3
  mw_t : Vec3

/-- `[-v for v in camera.view_frame(scene=scene)[:3]]` (utils.py line
50): the first three view-frame corners, negated. -/
def negTake3 (fr : Vec3 × Vec3 × Vec3 × Vec3) : Vec3 × Vec3 × Vec3 :=
  (vneg fr.1, vneg fr.2.1, vneg fr.2.2.1)

/-- `v / (v.z / z)` (utils.py line 57): the per-corner rescale of the
perspective branch, with Python's division-by-zero behavior. -/
def scaleCorner (v : Vec3) (z : ℚ) : Except PyError Vec3 :=
  match pydiv v.z z with
  | Except.error e => Except.error e
  | Except.ok r => pydivV v r

/-- The frame actually interpolated by `image2world` (utils.py lines
50-57, shared verbatim with the host's `world_to_camera_view`): the
negated first three corners, rescaled per corner by `v / (v.z / z)` for a
non-orthographic camera and left unscaled for an orthographic one. -/
def framePrep (camera : CamData) (scene : Scene) (z : ℚ) :
    Except PyError (Vec3 × Vec3 × Vec3) :=
  let fr := negTake3 (camera.view_frame scene)
  if camera.ctype ≠ CamType.ORTHO then
    match scaleCorner fr.1 z with
    | Except.error e => Except.error e
    | Except.ok g0 =>
      match scaleCorner fr.2.1 z with
      | Except.error e => Except.error e
      | Except.ok g1 =>
        match scaleCorner fr.2.2 z with
        | Except.error e => Except.error e
        | Except.ok g2 => Except.ok (g0, g1, g2)
  else Except.ok fr

/-- `image2world(cam, im_pos, scene)` (utils.py lines 44-73): negate the
first three view-frame corners; for a non-orthographic camera return the
constant (0.5, 0.5, 0.0) at the exact input (0.5, 0.5, 0.0) and otherwise
rescale each corner by `v / (v.z / z)`; then bilinearly interpolate the
corner bounds (min_x = frame[1].x, max_x = frame[2].x, min_y =
frame[0].y, max_y = frame[1].y) by (x, y), build (cx, cy, -z), and apply
the camera's orthonormalized world matrix. -/
def image2world (cam : Camera) (im_pos : ℚ × ℚ × ℚ) (scene : Scene) :
    Except PyError Vec3 :=
  let x := im_pos.1
  let y := im_pos.2.1
  let z := im_pos.2.2
  let camera := cam.data
  if camera.ctype ≠ CamType.ORTHO ∧ x = 1/2 ∧ y = 1/2 ∧ z = 0 then
    Except.ok ⟨1/2, 1/2, 0⟩
  else
    match framePrep camera scene z with
    | Except.error e => Except.error e
    | Except.ok fr =>
      let min_x := fr.2.1.x
      let max_x := fr.2.2.x
      let min_y := fr.1.y
      let max_y := fr.2.1.y
      let cx := x * (max_x - min_x) + min_x
      let cy := y * (max_y - min_y) + min_y
      Except.ok (vadd (mulV cam.mw_R ⟨cx, cy, -z⟩) cam.mw_t)

/-- Modelled from the spec: the host API
`bpy_extras.object_utils.world_to_camera_view(scene, cam, coord)` called
by `get_camera_coords` is not part of this repository's sources.  The
specification describes it as transforming the world point into
normalized camera view coordinates (x, y in [0,1] spanning the image
plane, z the signed depth along the viewing axis), the exact forward
counterpart of `image2world`: invert the camera's orthonormalized world
matrix to obtain the camera-local point, take z as the negated local
depth, special-case zero depth for a non-orthographic camera, prepare the
view-frame corners exactly as `image2world` does, and read (x, y) off the
interpolation bounds by the inverse of `image2world`'s bilinear
interpolation. -/
def world_to_camera_view (scene : Scene) (cam : Camera) (coord : Vec3) :
    Except PyError (ℚ × ℚ × ℚ) :=
  match matInv3 cam.mw_R with
  | Except.error e => Except.error e
  | Except.ok Minv =>
    let co_local := mulV Minv (vsub coord cam.mw_t)
    let z := -co_local.z
    let camera := cam.data
    if camera.ctype ≠ CamType.ORTHO ∧ z = 0 then Except.ok (1/2, 1/2, 0)
    else
      match framePrep camera scene z with
      | Except.error e => Except.error e
      | Except.ok fr =>
        let min_x := fr.2.1.x
        let max_x := fr.2.2.x
        let min_y := fr.1.y
        let max_y := fr.2.1.y
        match pydiv (co_local.x - min_x) (max_x - min_x) with
        | Except.error e => Except.error e
        | Except.ok x =>
          match pydiv (co_local.y - min_y) (max_y - min_y) with
          | Except.error e => Except.error e
          | Except.ok y => Except.ok (x, y, z)

/-- Python `int()` on a float: truncation toward zero. -/
def pyInt (q : ℚ) : ℤ :=
  if q < 0 then -⌊-q⌋ else ⌊q⌋

/-- Python 3 `round()` on a float: round half to even. -/
def pyRound (q : ℚ) : ℤ :=
  let f := ⌊q⌋
  let r := q - f
  if r < 1/2 then f
  else if 1/2 < r then f + 1
  else if f % 2 = 0 then f else f + 1

/-- `get_camera_coords(cam, pos)` (utils.py lines 114-140): forward
projection through the host's `world_to_camera_view`, pixel coordinates
px = int(round(x * w)) and py = int(round(h - y * h)) with w and h the
resolution scaled by resolution_percentage / 100 and truncated by
`int()`, then the consistency assertion `d1 + d2 + d3 <= 0.001` on the
signed components of `image2world(cam, (x, y, z), scene) - pos`, failing
with `ConsistencyError`; on success returns (px, py, z). -/
def get_camera_coords (scene : Scene) (cam : Camera) (pos : Vec3) :
    Except PyError (ℤ × ℤ × ℚ) :=
  match world_to_camera_view scene cam pos with
  | Except.error e => Except.error e
  | Except.ok ndc =>
    let x := ndc.1
    let y := ndc.2.1
    let z := ndc.2.2
    let scale : ℚ := (scene.resolution_percentage : ℚ) / 100
    let w : ℤ := pyInt (scale * (scene.resolution_x : ℚ))
    let h : ℤ := pyInt (scale * (scene.resolution_y : ℚ))
    let px : ℤ := pyRound (x * (w : ℚ))
    let py : ℤ := pyRound ((h : ℚ) - y * (h : ℚ))
    match image2world cam (x, y, z) scene with
    | Except.error e => Except.error e
    | Except.ok res =>
      let d1 := res.x - pos.x
      let d2 := res.y - pos.y
      let d3 := res.z - pos.z
      if d1 + d2 + d3 ≤ 1/1000 then Except.ok (px, py, z)
      else Except.error PyError.ConsistencyError

/-- `intrinsic_mat(cam)` (utils.py lines 84-111) with the ambient
`bpy.context.scene` passed explicitly: assert resolution_percentage ==
100 and sensor_fit != VERTICAL (both surfaced as `PreconditionError`),
then f_x = lens / sensor_width * w, f_y = f_x * (pixel_aspect_y /
pixel_aspect_x), c_x = w * (0.5 - shift_x), c_y = h * 0.5 + w * shift_y,
returned as the 4-tuple (f_x, f_y, c_x, c_y). -/
def intrinsic_mat (scene : Scene) (cam : CamData) :
    Except PyError (ℚ × ℚ × ℚ × ℚ) :=
  if scene.resolution_percentage ≠ 100 then
    Except.error PyError.PreconditionError
  else if cam.sensor_fit = SensorFit.VERTICAL then
    Except.error PyError.PreconditionError
  else
    let w : ℚ := (scene.resolution_x : ℚ)
    let h : ℚ := (scene.resolution_y : ℚ)
    match pydiv scene.pixel_aspect_y scene.pixel_aspect_x with
    | Except.error e => Except.error e
    | Except.ok pixel_aspect =>
      match pydiv cam.lens cam.sensor_width with
      | Except.error e => Except.error e
      | Except.ok f_over_sw =>
        let f_x := f_over_sw * w
        let f_y := f_x * pixel_aspect
        let c_x := w * (1/2 - cam.shift_x)
        let c_y := h * (1/2) + w * cam.shift_y
        Except.ok (f_x, f_y, c_x, c_y)

/-- The camera-local coordinates of a world point: what
`world_to_camera_view` computes as co_local (meaningful when the rotation
part is invertible). -/
def coLocal (cam : Camera) (P : Vec3) : Vec3 :=
  mulV (inv3 cam.mw_R) (vsub P cam.mw_t)

/-- The normalized depth of a world point: the negated camera-local z. -/
def zOf (cam : Camera) (P : Vec3) : ℚ :=
  -(coLocal cam P).z

/-- The effective pixel width used by `get_camera_coords`:
`int(resolution_percentage / 100.0 * resolution_x)`. -/
def effW (scene : Scene) : ℤ :=
  pyInt ((scene.resolution_percentage : ℚ) / 100 * (scene.resolution_x : ℚ))

/-- The effective pixel height used by `get_camera_coords`:
`int(resolution_percentage / 100.0 * resolution_y)`. -/
def effH (scene : Scene) : ℤ :=
  pyInt ((scene.resolution_percentage : ℚ) / 100 * (scene.resolution_y : ℚ))

/-- The residual `res - pos` checked by the consistency assertion of
`get_camera_coords`: the world point reconstructed by `image2world` from
the normalized coordinates of `world_to_camera_view`, minus the input
world point. -/
def reprojectionResidual (scene : Scene) (cam : Camera) (pos : Vec3) :
    Except PyError Vec3 :=
  match world_to_camera_view scene cam pos with
  | Except.error e => Except.error e
  | Except.ok ndc =>
    match image2world cam ndc scene with
    | Except.error e => Except.error e
    | Except.ok res => Except.ok (vsub res pos)

/-- The recovery notion the specification states for the consistency
guard: re-projection recovers the world point within 0.001 absolute
error per component. -/
def recoveredWithinTol (scene : Scene) (cam : Camera) (pos : Vec3) : Prop :=
  ∃ d, reprojectionResidual scene cam pos = Except.ok d ∧
    |d.x| ≤ 1/1000 ∧ |d.y| ≤ 1/1000 ∧ |d.z| ≤ 1/1000

/-! ## Concrete inputs used by witnesses and counterexamples -/

/-- An 800x600 unscaled render with square pixels. -/
def sceneW : Scene :=
  { resolution_x := 800
    resolution_y := 600
    resolution_percentage := 100
    pixel_aspect_x := 1
    pixel_aspect_y := 1 }

/-- A 35mm lens on a 32mm-wide horizontally fitted perspective camera
with no principal-point shift; its view frame is the square
[-1, 1] x [-1, 1] at camera-local depth -2, ordered so that the negated
first three corners give min_x = -1, max_x = 1, min_y = -1, max_y = 1. -/
def camDataW : CamData :=
  { ctype := CamType.PERSP
    lens := 35
    sensor_width := 32
    sensor_fit := SensorFit.HORIZONTAL
    shift_x := 0
    shift_y := 0
    view_frame := fun _ => (⟨1, 1, -2⟩, ⟨1, -1, -2⟩, ⟨-1, -1, -2⟩, ⟨-1, 1, -2⟩) }

/-- The identity rotation. -/
def idMat3 : Mat3 := ⟨1, 0, 0, 0, 1, 0, 0, 0, 1⟩

/-- The camera `camDataW` placed at the world origin with identity
orientation. -/
def camW : Camera :=
  { data := camDataW
    mw_R := idMat3
    mw_t := ⟨0, 0, 0⟩ }

/-- The same camera with an orthographic data block. -/
def camOrthoData : CamData :=
  { camDataW with ctype := CamType.ORTHO }

/-- A world point on `camW`'s zero-depth plane, far from the view-frame
center: its normalized coordinates hit the zero-depth special case. -/
def posC5 : Vec3 := ⟨21/2, -19/2, 0⟩

/-! ## Definitions following claim wordings (for comparison with the
source embedding) -/

/-- Following the words of claim C4, not the source: each negated
view-frame corner is MULTIPLIED by (corner.z / depth). -/
def scaleCornerClaimC4 (v : Vec3) (z : ℚ) : Except PyError Vec3 :=
  match pydiv v.z z with
  | Except.error e => Except.error e
  | Except.ok r => Except.ok ⟨v.x * r, v.y * r, v.z * r⟩

/-- `framePrep` with claim C4's corner scaling in place of the
source's. -/
def framePrepClaimC4 (camera : CamData) (scene : Scene) (z : ℚ) :
    Except PyError (Vec3 × Vec3 × Vec3) :=
  let fr := negTake3 (camera.view_frame scene)
  if camera.ctype ≠ CamType.ORTHO then
    match scaleCornerClaimC4 fr.1 z with
    | Except.error e => Except.error e
    | Except.ok g0 =>
      match scaleCornerClaimC4 fr.2.1 z with
      | Except.error e => Except.error e
      | Except.ok g1 =>
        match scaleCornerClaimC4 fr.2.2 z with
        | Except.error e => Except.error e
        | Except.ok g2 => Except.ok (g0, g1, g2)
  else Except.ok fr

/-- `image2world` with claim C4's corner scaling in place of the
source's. -/
def image2worldClaimC4 (cam : Camera) (im_pos : ℚ × ℚ × ℚ) (scene : Scene) :
    Except PyError Vec3 :=
  let x := im_pos.1
  let y := im_pos.2.1
  let z := im_pos.2.2
  let camera := cam.data
  if camera.ctype ≠ CamType.ORTHO ∧ x = 1/2 ∧ y = 1/2 ∧ z = 0 then
    Except.ok ⟨1/2, 1/2, 0⟩
  else
    match framePrepClaimC4 camera scene z with
    | Except.error e => Except.error e
    | Except.ok fr =>
      let min_x := fr.2.1.x
      let max_x := fr.2.2.x
      let min_y := fr.1.y
      let max_y := fr.2.1.y
      let cx := x * (max_x - min_x) + min_x
      let cy := y * (max_y - min_y) + min_y
      Except.ok (vadd (mulV cam.mw_R ⟨cx, cy, -z⟩) cam.mw_t)

/-- The amended C4 scaling: each negated corner is DIVIDED by
(corner.z / depth), that is, multiplied by (depth / corner.z), with the
source's error behavior (failure when depth is zero or the corner's z is
zero). -/
def scaleCornerAmendedC4 (v : Vec3) (z : ℚ) : Except PyError Vec3 :=
  if z = 0 then Except.error PyError.ZeroDivisionError
  else if v.z = 0 then Except.error PyError.ZeroDivisionError
  else Except.ok ⟨v.x * (z / v.z), v.y * (z / v.z), v.z * (z / v.z)⟩

/-- `framePrep` written with the amended C4 scaling. -/
def framePrepAmendedC4 (camera : CamData) (scene : Scene) (z : ℚ) :
    Except PyError (Vec3 × Vec3 × Vec3) :=
  let fr := negTake3 (camera.view_frame scene)
  if camera.ctype ≠ CamType.ORTHO then
    match scaleCornerAmendedC4 fr.1 z with
    | Except.error e => Except.error e
    | Except.ok g0 =>
      match scaleCornerAmendedC4 fr.2.1 z with
      | Except.error e => Except.error e
      | Except.ok g1 =>
        match scaleCornerAmendedC4 fr.2.2 z with
        | Except.error e => Except.error e
        | Except.ok g2 => Except.ok (g0, g1, g2)
  else Except.ok fr

/-- `image2world` written with the amended C4 scaling: perspective
corners multiplied by (depth / corner.z) before the bilinear
interpolation, orthographic corners untouched. -/
def image2worldAmendedC4 (cam : Camera) (im_pos : ℚ × ℚ × ℚ) (scene : Scene) :
    Except PyError Vec3 :=
  let x := im_pos.1
  let y := im_pos.2.1
  let z := im_pos.2.2
  let camera := cam.data
  if camera.ctype ≠ CamType.ORTHO ∧ x = 1/2 ∧ y = 1/2 ∧ z = 0 then
    Except.ok ⟨1/2, 1/2, 0⟩
  else
    match framePrepAmendedC4 camera scene z with
    | Except.error e => Except.error e
    | Except.ok fr =>
      let min_x := fr.2.1.x
      let max_x := fr.2.2.x
      let min_y := fr.1.y
      let max_y := fr.2.1.y
      let cx := x * (max_x - min_x) + min_x
      let cy := y * (max_y - min_y) + min_y
      Except.ok (vadd (mulV cam.mw_R ⟨cx, cy, -z⟩) cam.mw_t)

/-! ## Helper lemmas -/

/-- Division with a nonzero denominator succeeds. -/
theorem pydiv_ok {a b : ℚ} (h : b ≠ 0) : pydiv a b = Except.ok (a / b) := by
  simp [pydiv, h]

/-- The only error `pydiv` can raise is `ZeroDivisionError`. -/
theorem pydiv_error_eq {a b : ℚ} {e : PyError}
    (h : pydiv a b = Except.error e) : e = PyError.ZeroDivisionError := by
  unfold pydiv at h
  split at h
  · exact (Except.error.inj h).symm
  · exact Except.noConfusion h

/-- The adjugate inverse is a genuine left inverse on vectors when the
determinant is nonzero. -/
theorem mulV_inv3 (M : Mat3) (v : Vec3) (h : det3 M ≠ 0) :
    mulV M (mulV (inv3 M) v) = v := by
  refine Vec3.ext ?_ ?_ ?_ <;>
  · simp only [mulV, inv3]
    field_simp
    simp only [det3]
    ring

/-- The source's per-corner rescale `v / (v.z / z)` coincides with
multiplication by `z / v.z`, error cases included. -/
theorem scaleCorner_eq_amendedC4 (v : Vec3) (z : ℚ) :
    scaleCorner v z = scaleCornerAmendedC4 v z := by
  unfold scaleCorner scaleCornerAmendedC4 pydiv pydivV
  by_cases hz : z = 0
  · simp [hz]
  · rw [if_neg hz]
    by_cases hvz : v.z = 0
    · simp [hz, hvz]
    · have hr : v.z / z ≠ 0 := div_ne_zero hvz hz
      rw [if_neg hz, if_neg hvz]
      simp only [if_neg hr]
      rw [div_div_eq_mul_div, div_div_eq_mul_div, div_div_eq_mul_div,
        mul_div_assoc, mul_div_assoc, mul_div_assoc]

/-- The frames produced by the source's scaling and the amended C4
scaling agree on every input. -/
theorem framePrep_eq_amendedC4 (camera : CamData) (scene : Scene) (z : ℚ) :
    framePrep camera scene z = framePrepAmendedC4 camera scene z := by
  simp only [framePrep, framePrepAmendedC4, scaleCorner_eq_amendedC4]

/-- Evaluation of `image2world` off the special case, with a known
prepared frame. -/
theorem image2world_eval (cam : Camera) (scene : Scene) (x y z : ℚ)
    (g0 g1 g2 : Vec3) (hz0 : z ≠ 0)
    (hfr : framePrep cam.data scene z = Except.ok (g0, g1, g2)) :
    image2world cam (x, y, z) scene = Except.ok
      (vadd (mulV cam.mw_R
        ⟨x * (g2.x - g1.x) + g1.x, y * (g1.y - g0.y) + g0.y, -z⟩) cam.mw_t) := by
  simp only [image2world]
  rw [if_neg (fun h => hz0 h.2.2.2), hfr]

/-- Evaluation of `world_to_camera_view` for an invertible world matrix,
nonzero depth and a known, nondegenerate prepared frame. -/
theorem w2cv_eval (scene : Scene) (cam : Camera) (P : Vec3)
    (g0 g1 g2 : Vec3) (hdet : det3 cam.mw_R ≠ 0)
    (hz0 : -(mulV (inv3 cam.mw_R) (vsub P cam.mw_t)).z ≠ 0)
    (hfr : framePrep cam.data scene
      (-(mulV (inv3 cam.mw_R) (vsub P cam.mw_t)).z) = Except.ok (g0, g1, g2))
    (hx : g2.x ≠ g1.x) (hy : g1.y ≠ g0.y) :
    world_to_camera_view scene cam P = Except.ok
      (((mulV (inv3 cam.mw_R) (vsub P cam.mw_t)).x - g1.x) / (g2.x - g1.x),
       ((mulV (inv3 cam.mw_R) (vsub P cam.mw_t)).y - g0.y) / (g1.y - g0.y),
       -(mulV (inv3 cam.mw_R) (vsub P cam.mw_t)).z) := by
  simp only [world_to_camera_view]
  rw [show matInv3 cam.mw_R = Except.ok (inv3 cam.mw_R) from by
    rw [matInv3, if_neg hdet]]
  dsimp only
  rw [if_neg (fun h => hz0 h.2), hfr]
  dsimp only
  rw [pydiv_ok (sub_ne_zero.mpr hx)]
  dsimp only
  rw [pydiv_ok (sub_ne_zero.mpr hy)]

/-- The prepared frame of the concrete perspective camera at depth 1:
each negated corner (z = 2) is divided by 2/1. -/
theorem framePrep_camW_one :
    framePrep camW.data sceneW 1 =
      Except.ok (⟨-1/2, -1/2, 1⟩, ⟨-1/2, 1/2, 1⟩, ⟨1/2, 1/2, 1⟩) := by
  simp only [framePrep, camW, camDataW, negTake3, vneg, scaleCorner,
    pydiv, pydivV]
  norm_num
  decide

/-- `world_to_camera_view` on `camW` at the zero-depth plane point
`posC5`: the zero-depth special case returns (0.5, 0.5, 0.0). -/
theorem w2cv_camW_posC5 :
    world_to_camera_view sceneW camW posC5 = Except.ok (1/2, 1/2, 0) := by
  simp only [world_to_camera_view]
  rw [show matInv3 camW.mw_R = Except.ok (inv3 camW.mw_R) from by
    rw [matInv3, if_neg (by norm_num [det3, camW, idMat3])]]
  dsimp only
  rw [if_pos ⟨by decide, by norm_num [mulV, inv3, det3, vsub, camW, idMat3, posC5]⟩]

/-- `image2world` on `camW` at the exact center-at-zero-depth input. -/
theorem image2world_camW_center :
    image2world camW (1/2, 1/2, 0) sceneW = Except.ok ⟨1/2, 1/2, 0⟩ := by
  simp [image2world, camW, camDataW]

/-- The consistency residual of `camW` at `posC5`: the re-projected point
is the constant (0.5, 0.5, 0.0), so the residual is (-10, 10, 0),
whose signed components cancel. -/
theorem residual_camW_posC5 :
    reprojectionResidual sceneW camW posC5 = Except.ok ⟨-10, 10, 0⟩ := by
  unfold reprojectionResidual
  rw [w2cv_camW_posC5]
  dsimp only
  rw [image2world_camW_center]
  dsimp only
  norm_num [vsub, posC5]

/-- `get_camera_coords` on `camW` at `posC5` returns normally even though
the re-projected point is 10 units away per axis: the signed residual sum
is 0 ≤ 0.001. -/
theorem get_camW_posC5 :
    get_camera_coords sceneW camW posC5 = Except.ok (400, 300, 0) := by
  unfold get_camera_coords
  rw [w2cv_camW_posC5]
  dsimp only
  rw [image2world_camW_center]
  dsimp only
  rw [if_pos (by norm_num [posC5])]
  norm_num [pyInt, pyRound, sceneW]

/-- `world_to_camera_view` on `camW` at the point (0, 0, -1) one unit in
front of the camera. -/
theorem w2cv_camW_front :
    world_to_camera_view sceneW camW ⟨0, 0, -1⟩ = Except.ok (1/2, 1/2, 1) := by
  have hone : -(mulV (inv3 camW.mw_R) (vsub ⟨0, 0, -1⟩ camW.mw_t)).z = 1 := by
    norm_num [mulV, inv3, det3, vsub, camW, idMat3]
  have hz0 : -(mulV (inv3 camW.mw_R) (vsub ⟨0, 0, -1⟩ camW.mw_t)).z ≠ 0 := by
    rw [hone]; norm_num
  have hfr : framePrep camW.data sceneW
      (-(mulV (inv3 camW.mw_R) (vsub ⟨0, 0, -1⟩ camW.mw_t)).z) =
      Except.ok (⟨-1/2, -1/2, 1⟩, ⟨-1/2, 1/2, 1⟩, ⟨1/2, 1/2, 1⟩) := by
    rw [hone]; exact framePrep_camW_one
  rw [w2cv_eval sceneW camW ⟨0, 0, -1⟩ ⟨-1/2, -1/2, 1⟩ ⟨-1/2, 1/2, 1⟩
    ⟨1/2, 1/2, 1⟩ (by norm_num [det3, camW, idMat3]) hz0 hfr
    (by norm_num) (by norm_num)]
  norm_num [mulV, inv3, det3, vsub, camW, idMat3]

/-- `get_camera_coords` on `camW` at (0, 0, -1): pixel (400, 300) and
depth 1. -/
theorem get_camW_front :
    get_camera_coords sceneW camW ⟨0, 0, -1⟩ = Except.ok (400, 300, 1) := by
  have him : image2world camW (1/2, 1/2, 1) sceneW = Except.ok ⟨0, 0, -1⟩ := by
    rw [image2world_eval camW sceneW (1/2) (1/2) 1 ⟨-1/2, -1/2, 1⟩
      ⟨-1/2, 1/2, 1⟩ ⟨1/2, 1/2, 1⟩ (by norm_num) framePrep_camW_one]
    norm_num [mulV, vadd, camW, idMat3]
  unfold get_camera_coords
  rw [w2cv_camW_front]
  dsimp only
  rw [him]
  dsimp only
  rw [if_pos (by norm_num)]
  norm_num [pyInt, pyRound, sceneW]

/-! ## Claim theorems -/

/-- C1: for every camera and render settings satisfying the preconditions
(resolution_percentage = 100, sensor fit not VERTICAL) and with the
spec-required positive-denominator input domain (nonzero sensor width and
pixel_aspect_x), `intrinsic_mat` returns exactly
fx = (focal_length / sensor_width) * width,
fy = fx * (pixel_aspect_y / pixel_aspect_x),
cx = width * (0.5 - shift_x), and cy = height * 0.5 + width * shift_y. -/
theorem C1_intrinsic_formula (scene : Scene) (cam : CamData)
    (h100 : scene.resolution_percentage = 100)
    (hfit : cam.sensor_fit ≠ SensorFit.VERTICAL)
    (hpa : scene.pixel_aspect_x ≠ 0)
    (hsw : cam.sensor_width ≠ 0) :
    intrinsic_mat scene cam = Except.ok
      (cam.lens / cam.sensor_width * (scene.resolution_x : ℚ),
       cam.lens / cam.sensor_width * (scene.resolution_x : ℚ) *
         (scene.pixel_aspect_y / scene.pixel_aspect_x),
       (scene.resolution_x : ℚ) * (1/2 - cam.shift_x),
       (scene.resolution_y : ℚ) * (1/2) + (scene.resolution_x : ℚ) * cam.shift_y) := by
  unfold intrinsic_mat
  rw [if_neg (by simp [h100]), if_neg hfit, pydiv_ok hpa, pydiv_ok hsw]

/-- C1 witness: the formula theorem instantiated at the 35mm/32mm 800x600
camera. -/
theorem C1_intrinsic_formula_witness :
    (sceneW.resolution_percentage = 100 ∧
      camDataW.sensor_fit ≠ SensorFit.VERTICAL ∧
      sceneW.pixel_aspect_x ≠ 0 ∧ camDataW.sensor_width ≠ 0) ∧
    intrinsic_mat sceneW camDataW = Except.ok
      (camDataW.lens / camDataW.sensor_width * (sceneW.resolution_x : ℚ),
       camDataW.lens / camDataW.sensor_width * (sceneW.resolution_x : ℚ) *
         (sceneW.pixel_aspect_y / sceneW.pixel_aspect_x),
       (sceneW.resolution_x : ℚ) * (1/2 - camDataW.shift_x),
       (sceneW.resolution_y : ℚ) * (1/2) + (sceneW.resolution_x : ℚ) * camDataW.shift_y) :=
  ⟨⟨rfl, by decide, by decide, by decide⟩,
   C1_intrinsic_formula sceneW camDataW rfl (by decide) (by decide) (by decide)⟩

/-- C2: `intrinsic_mat` fails with `PreconditionError` exactly when
resolution_percentage is not 100 or the sensor fit is VERTICAL; it never
raises that error otherwise (its only other failures are division
errors), and it never auto-corrects either condition. -/
theorem C2_precondition_error_iff (scene : Scene) (cam : CamData) :
    intrinsic_mat scene cam = Except.error PyError.PreconditionError ↔
      (scene.resolution_percentage ≠ 100 ∨ cam.sensor_fit = SensorFit.VERTICAL) := by
  unfold intrinsic_mat
  by_cases h1 : scene.resolution_percentage ≠ 100
  · simp [h1]
  · rw [if_neg h1]
    by_cases h2 : cam.sensor_fit = SensorFit.VERTICAL
    · simp [h2]
    · rw [if_neg h2]
      have hrhs : ¬(scene.resolution_percentage ≠ 100 ∨
          cam.sensor_fit = SensorFit.VERTICAL) := by
        rintro (h | h)
        · exact h1 h
        · exact h2 h
      simp only [hrhs, iff_false]
      intro hcontra
      split at hcontra
      · rename_i e heq
        cases pydiv_error_eq heq
        exact PyError.noConfusion (Except.error.inj hcontra)
      · split at hcontra
        · rename_i e heq
          cases pydiv_error_eq heq
          exact PyError.noConfusion (Except.error.inj hcontra)
        · exact Except.noConfusion hcontra

/-- C3: for every valid pinhole camera (invertible orthonormalized world
matrix, nondegenerate prepared view frame) and every world point P
strictly in front of the camera (positive normalized depth), feeding the
normalized coordinates produced by the forward projection
`world_to_camera_view` into `image2world` recovers P — here exactly, so
in particular within 1e-3 absolute error per component. -/
theorem C3_project_unproject_roundtrip (scene : Scene) (cam : Camera)
    (P : Vec3) (g0 g1 g2 : Vec3)
    (hdet : det3 cam.mw_R ≠ 0)
    (hz : 0 < zOf cam P)
    (hfr : framePrep cam.data scene (zOf cam P) = Except.ok (g0, g1, g2))
    (hx : g2.x ≠ g1.x) (hy : g1.y ≠ g0.y) :
    ∃ ndc Q, world_to_camera_view scene cam P = Except.ok ndc ∧
      image2world cam ndc scene = Except.ok Q ∧
      |Q.x - P.x| ≤ 1/1000 ∧ |Q.y - P.y| ≤ 1/1000 ∧ |Q.z - P.z| ≤ 1/1000 := by
  have hz0 : zOf cam P ≠ 0 := ne_of_gt hz
  simp only [zOf, coLocal] at hz0 hfr
  refine ⟨(((mulV (inv3 cam.mw_R) (vsub P cam.mw_t)).x - g1.x) / (g2.x - g1.x),
          ((mulV (inv3 cam.mw_R) (vsub P cam.mw_t)).y - g0.y) / (g1.y - g0.y),
          -(mulV (inv3 cam.mw_R) (vsub P cam.mw_t)).z), P, ?_, ?_, ?_⟩
  · exact w2cv_eval scene cam P g0 g1 g2 hdet hz0 hfr hx hy
  · rw [image2world_eval cam scene _ _ _ g0 g1 g2 hz0 hfr]
    have e1 : ((mulV (inv3 cam.mw_R) (vsub P cam.mw_t)).x - g1.x) /
        (g2.x - g1.x) * (g2.x - g1.x) + g1.x =
        (mulV (inv3 cam.mw_R) (vsub P cam.mw_t)).x := by
      field_simp [sub_ne_zero.mpr hx]
    have e2 : ((mulV (inv3 cam.mw_R) (vsub P cam.mw_t)).y - g0.y) /
        (g1.y - g0.y) * (g1.y - g0.y) + g0.y =
        (mulV (inv3 cam.mw_R) (vsub P cam.mw_t)).y := by
      field_simp [sub_ne_zero.mpr hy]
    rw [e1, e2, neg_neg]
    rw [show (⟨(mulV (inv3 cam.mw_R) (vsub P cam.mw_t)).x,
              (mulV (inv3 cam.mw_R) (vsub P cam.mw_t)).y,
              (mulV (inv3 cam.mw_R) (vsub P cam.mw_t)).z⟩ : Vec3) =
        mulV (inv3 cam.mw_R) (vsub P cam.mw_t) from rfl]
    rw [mulV_inv3 cam.mw_R (vsub P cam.mw_t) hdet]
    rw [show vadd (vsub P cam.mw_t) cam.mw_t = P from by
      refine Vec3.ext ?_ ?_ ?_ <;> simp [vadd, vsub]]
  · norm_num

/-- C3 witness: the round trip instantiated at the concrete perspective
camera `camW` and the world point (0, 0, -1) one unit in front of it. -/
theorem C3_project_unproject_roundtrip_witness :
    (det3 camW.mw_R ≠ 0 ∧ 0 < zOf camW ⟨0, 0, -1⟩ ∧
     framePrep camW.data sceneW (zOf camW ⟨0, 0, -1⟩) =
       Except.ok (⟨-1/2, -1/2, 1⟩, ⟨-1/2, 1/2, 1⟩, ⟨1/2, 1/2, 1⟩) ∧
     ((⟨1/2, 1/2, 1⟩ : Vec3).x ≠ (⟨-1/2, 1/2, 1⟩ : Vec3).x) ∧
     ((⟨-1/2, 1/2, 1⟩ : Vec3).y ≠ (⟨-1/2, -1/2, 1⟩ : Vec3).y)) ∧
    (∃ ndc Q, world_to_camera_view sceneW camW ⟨0, 0, -1⟩ = Except.ok ndc ∧
      image2world camW ndc sceneW = Except.ok Q ∧
      |Q.x - (⟨0, 0, -1⟩ : Vec3).x| ≤ 1/1000 ∧
      |Q.y - (⟨0, 0, -1⟩ : Vec3).y| ≤ 1/1000 ∧
      |Q.z - (⟨0, 0, -1⟩ : Vec3).z| ≤ 1/1000) := by
  have hdet : det3 camW.mw_R ≠ 0 := by norm_num [det3, camW, idMat3]
  have hzv : zOf camW ⟨0, 0, -1⟩ = 1 := by
    norm_num [zOf, coLocal, inv3, det3, mulV, vsub, camW, idMat3]
  have hz : 0 < zOf camW ⟨0, 0, -1⟩ := by rw [hzv]; norm_num
  have hfr : framePrep camW.data sceneW (zOf camW ⟨0, 0, -1⟩) =
      Except.ok (⟨-1/2, -1/2, 1⟩, ⟨-1/2, 1/2, 1⟩, ⟨1/2, 1/2, 1⟩) := by
    rw [hzv]
    simp only [framePrep, camW, camDataW, negTake3, vneg, scaleCorner,
      pydiv, pydivV]
    norm_num
    decide
  have hx : ((⟨1/2, 1/2, 1⟩ : Vec3).x ≠ (⟨-1/2, 1/2, 1⟩ : Vec3).x) := by
    norm_num
  have hy : ((⟨-1/2, 1/2, 1⟩ : Vec3).y ≠ (⟨-1/2, -1/2, 1⟩ : Vec3).y) := by
    norm_num
  exact ⟨⟨hdet, hz, hfr, hx, hy⟩,
    C3_project_unproject_roundtrip sceneW camW ⟨0, 0, -1⟩ _ _ _ hdet hz hfr hx hy⟩

/-- C4 counterexample: at the concrete perspective camera `camW` and
input (0, 0, 1), the source's `image2world` (corners divided by
(corner.z / depth)) and the claim's reading (corners multiplied by
(corner.z / depth)) return different world points, so the claim as
stated is false of the code. -/
theorem C4_scale_direction_counterexample :
    image2world camW (0, 0, 1) sceneW = Except.ok ⟨-1/2, -1/2, -1⟩ ∧
    image2worldClaimC4 camW (0, 0, 1) sceneW = Except.ok ⟨-2, -2, -1⟩ ∧
    (⟨-1/2, -1/2, -1⟩ : Vec3) ≠ (⟨-2, -2, -1⟩ : Vec3) := by
  refine ⟨?_, ?_, ?_⟩
  · simp only [image2world, framePrep, camW, camDataW, sceneW, negTake3, vneg,
      scaleCorner, pydiv, pydivV, mulV, vadd, idMat3]
    norm_num
    rw [if_neg (by decide)]
  · simp only [image2worldClaimC4, framePrepClaimC4, camW, camDataW, sceneW,
      negTake3, vneg, scaleCornerClaimC4, pydiv, mulV, vadd, idMat3]
    norm_num
    rw [if_neg (by decide)]
  · simp only [ne_eq, Vec3.mk.injEq, not_and]
    norm_num

/-- C4 amended: in `image2world`, for a perspective camera and any input
other than the exact (0.5, 0.5, 0.0), each negated view-frame corner is
divided by (corner.z / depth) — equivalently scaled by
(depth / corner.z) — before the bilinear interpolation, and for an
orthographic camera the rescale is skipped entirely: the source function
equals `image2worldAmendedC4` on every input. -/
theorem C4_scale_direction_amended (cam : Camera) (im_pos : ℚ × ℚ × ℚ)
    (scene : Scene) :
    image2world cam im_pos scene = image2worldAmendedC4 cam im_pos scene := by
  simp only [image2world, image2worldAmendedC4, framePrep_eq_amendedC4]

/-- C5 counterexample: at the concrete camera `camW` and world point
`posC5`, the re-projection misses the input by 10 units on each of two
axes (far outside the 0.001 tolerance), yet `get_camera_coords` returns
normally because the signed per-axis differences cancel in the sum
`d1 + d2 + d3 <= 0.001`; the claim that project fails whenever the point
is not recovered within tolerance is therefore false of the code. -/
theorem C5_signed_sum_counterexample :
    (∃ out, get_camera_coords sceneW camW posC5 = Except.ok out) ∧
    ¬ recoveredWithinTol sceneW camW posC5 := by
  refine ⟨⟨(400, 300, 0), get_camW_posC5⟩, ?_⟩
  intro h
  unfold recoveredWithinTol at h
  obtain ⟨d, hd, habs, -, -⟩ := h
  rw [residual_camW_posC5] at hd
  cases Except.ok.inj hd
  norm_num at habs

/-- C5 amended: whenever both the forward and the inverse mapping
succeed, `get_camera_coords` fails with `ConsistencyError` exactly when
the SIGNED sum d1 + d2 + d3 of the residual components exceeds 0.001
(and returns normally otherwise); the guard sums signed differences, so
it can pass even when the point is not recovered within tolerance. -/
theorem C5_signed_sum_amended (scene : Scene) (cam : Camera) (pos : Vec3)
    (d : Vec3)
    (hres : reprojectionResidual scene cam pos = Except.ok d) :
    (get_camera_coords scene cam pos = Except.error PyError.ConsistencyError ↔
      1/1000 < d.x + d.y + d.z) := by
  unfold reprojectionResidual at hres
  split at hres
  · exact Except.noConfusion hres
  · rename_i ndc hndc
    split at hres
    · exact Except.noConfusion hres
    · rename_i res hres2
      cases Except.ok.inj hres
      obtain ⟨x, y, z⟩ := ndc
      unfold get_camera_coords
      rw [hndc]
      dsimp only
      rw [hres2]
      dsimp only
      by_cases hc : res.x - pos.x + (res.y - pos.y) + (res.z - pos.z) ≤ 1/1000
      · rw [if_pos hc]
        simp only [vsub]
        constructor
        · intro hcontra
          exact Except.noConfusion hcontra
        · intro hlt
          exact absurd hlt (not_lt.mpr hc)
      · rw [if_neg hc]
        simp only [vsub]
        constructor
        · intro _
          exact not_le.mp hc
        · intro _
          trivial

/-- C5 amended witness: the amended guard characterization instantiated
at `camW` and `posC5`, where the residual is (-10, 10, 0). -/
theorem C5_signed_sum_amended_witness :
    reprojectionResidual sceneW camW posC5 = Except.ok ⟨-10, 10, 0⟩ ∧
    (get_camera_coords sceneW camW posC5 = Except.error PyError.ConsistencyError ↔
      1/1000 < (⟨-10, 10, 0⟩ : Vec3).x + (⟨-10, 10, 0⟩ : Vec3).y +
        (⟨-10, 10, 0⟩ : Vec3).z) :=
  ⟨residual_camW_posC5,
   C5_signed_sum_amended sceneW camW posC5 ⟨-10, 10, 0⟩ residual_camW_posC5⟩

/-- C6: for every non-orthographic camera, `image2world` at the exact
input (0.5, 0.5, 0.0) returns the special-cased finite value
(0.5, 0.5, 0.0) — the view-frame center coordinate at zero depth — with
no division performed and no error raised. -/
theorem C6_center_zero_depth (cam : Camera) (scene : Scene)
    (h : cam.data.ctype ≠ CamType.ORTHO) :
    image2world cam (1/2, 1/2, 0) scene = Except.ok ⟨1/2, 1/2, 0⟩ := by
  simp [image2world, h]

/-- C6 witness: the special case evaluated on the concrete perspective
camera. -/
theorem C6_center_zero_depth_witness :
    camW.data.ctype ≠ CamType.ORTHO ∧
    image2world camW (1/2, 1/2, 0) sceneW = Except.ok ⟨1/2, 1/2, 0⟩ :=
  ⟨by decide, C6_center_zero_depth camW sceneW (by decide)⟩

/-- C7: whenever the forward projection returns normally, the pixel
coordinates it returns are px = round(x * w) and py = round(h - y * h),
with w and h the render resolution scaled by resolution_percentage / 100
and truncated to integers, and the normalized depth z is returned
unchanged. -/
theorem C7_pixel_coordinate_formulas (scene : Scene) (cam : Camera)
    (pos : Vec3) (x y z : ℚ) (out : ℤ × ℤ × ℚ)
    (hndc : world_to_camera_view scene cam pos = Except.ok (x, y, z))
    (hout : get_camera_coords scene cam pos = Except.ok out) :
    out = (pyRound (x * (effW scene : ℚ)),
           pyRound ((effH scene : ℚ) - y * (effH scene : ℚ)), z) := by
  unfold get_camera_coords at hout
  rw [hndc] at hout
  dsimp only at hout
  split at hout
  · exact Except.noConfusion hout
  · split at hout
    · exact (Except.ok.inj hout).symm
    · exact Except.noConfusion hout

/-- C7 witness: the pixel formula instantiated at the concrete camera
`camW` and the point (0, 0, -1), where the output is (400, 300, 1). -/
theorem C7_pixel_coordinate_formulas_witness :
    world_to_camera_view sceneW camW ⟨0, 0, -1⟩ = Except.ok (1/2, 1/2, 1) ∧
    get_camera_coords sceneW camW ⟨0, 0, -1⟩ = Except.ok (400, 300, 1) ∧
    ((400, 300, 1) : ℤ × ℤ × ℚ) =
      (pyRound (1/2 * (effW sceneW : ℚ)),
       pyRound ((effH sceneW : ℚ) - 1/2 * (effH sceneW : ℚ)), 1) :=
  ⟨w2cv_camW_front, get_camW_front,
   C7_pixel_coordinate_formulas sceneW camW ⟨0, 0, -1⟩ (1/2) (1/2) 1
     (400, 300, 1) w2cv_camW_front get_camW_front⟩

/-- C8: for an orthographic camera the frame used by `image2world` does
not depend on the input depth — two runs differing only in z use the
identical, unscaled corners (so the interpolation bounds min_x, max_x,
min_y, max_y agree between the runs). -/
theorem C8_ortho_frame_depth_invariant (camera : CamData) (scene : Scene)
    (z z' : ℚ) (h : camera.ctype = CamType.ORTHO) :
    framePrep camera scene z = framePrep camera scene z' ∧
    framePrep camera scene z = Except.ok (negTake3 (camera.view_frame scene)) :=
  ⟨by simp [framePrep, h], by simp [framePrep, h]⟩

/-- C8 witness: the orthographic camera data block at depths 1 and 2. -/
theorem C8_ortho_frame_depth_invariant_witness :
    camOrthoData.ctype = CamType.ORTHO ∧
    (framePrep camOrthoData sceneW 1 = framePrep camOrthoData sceneW 2 ∧
     framePrep camOrthoData sceneW 1 =
       Except.ok (negTake3 (camOrthoData.view_frame sceneW))) :=
  ⟨rfl, C8_ortho_frame_depth_invariant camOrthoData sceneW 1 2 rfl⟩

/-- C9: the 35mm lens, 32mm sensor, 800x600, square pixel, zero shift
camera has intrinsics exactly (875, 875, 400, 300). -/
theorem C9_intrinsic_example :
    intrinsic_mat sceneW camDataW = Except.ok (875, 875, 400, 300) := by
  simp only [intrinsic_mat, sceneW, camDataW]
  rw [if_neg (by decide), if_neg (by decide)]
  norm_num [pydiv]

/-- C10: for every non-orthographic camera, `image2world` at any
zero-depth input other than (0.5, 0.5, 0.0) divides by zero when
computing `v.z / z`, raising `ZeroDivisionError` instead of returning a
world point: the guard covers only the single exact center input. -/
theorem C10_zero_depth_divide_by_zero (cam : Camera) (scene : Scene)
    (x y : ℚ) (h1 : cam.data.ctype ≠ CamType.ORTHO)
    (h2 : ¬(x = 1/2 ∧ y = 1/2)) :
    image2world cam (x, y, 0) scene = Except.error PyError.ZeroDivisionError := by
  simp only [image2world]
  rw [if_neg (by rintro ⟨-, hx, hy, -⟩; exact h2 ⟨hx, hy⟩)]
  have hfp : framePrep cam.data scene 0 = Except.error PyError.ZeroDivisionError := by
    simp only [framePrep]
    rw [if_pos h1]
    simp [scaleCorner, pydiv]
  rw [hfp]

/-- C10 witness: the concrete perspective camera at the off-center
zero-depth input (0, 0, 0). -/
theorem C10_zero_depth_divide_by_zero_witness :
    camW.data.ctype ≠ CamType.ORTHO ∧ ¬((0:ℚ) = 1/2 ∧ (0:ℚ) = 1/2) ∧
    image2world camW (0, 0, 0) sceneW = Except.error PyError.ZeroDivisionError :=
  ⟨by decide, by norm_num,
   C10_zero_depth_divide_by_zero camW sceneW 0 0 (by decide) (by norm_num)⟩

end BlocksWorld
